import Mathlib

/-
  Verification of the Ledger & Recurrence Engine of the PresupuestoPersonal
  repository.  The ledger operations are embedded from the Transaction model
  (TransactionSchema.methods.applyToAccount / reverseTransaction and the
  pre-save middleware); the recurrence calculator from
  backend/src/controllers/recurringController.ts (calculateNextOccurrence);
  the credit amortization calculator from
  backend/src/controllers/accountController.ts (getCreditPaymentCalculation).
  Monetary amounts are idealized as rationals, the amortization formulas
  (which use logarithms) as reals.
-/

namespace Presupuesto

/-! ## Ledger data model (Transaction model file) -/

inductive TransactionType where
  | income
  | expense
  | transfer
  | payment
  | adjustment
deriving DecidableEq, Repr

inductive TransactionStatus where
  | pending
  | posted
  | paid
  | cancelled
deriving DecidableEq, Repr

inductive PaymentMethod where
  | cash
  | debitCard
  | creditCard
  | bankTransfer
  | other
deriving DecidableEq, Repr

/-- The fields of a Transaction document that the ledger logic reads or
writes.  Schema defaults: `status` defaults to posted, `isActive` to true,
`isRecurring` to false. -/
structure Transaction where
  id : ℕ
  description : String
  amount : ℚ
  type : TransactionType
  paymentMethod : PaymentMethod
  status : TransactionStatus := .posted
  accountId : ℕ
  transferToAccountId : Option ℕ := none
  transactionDate : ℤ
  effectiveDate : Option ℤ := none
  notes : Option String := none
  isRecurring : Bool := false
  recurringFrequency : Option String := none
  isActive : Bool := true
deriving DecidableEq, Repr

/-- The account store: a partial map from account id to current balance. -/
abbrev AccountMap := ℕ → Option ℚ

/-- Pointwise update of the account store at one account id. -/
def setBalance (accs : AccountMap) (i : ℕ) (b : ℚ) : AccountMap :=
  fun j => if j = i then some b else accs j

inductive LedgerError where
  | accountNotFound
  | transferRequiresTarget
  | recurringRequiresFrequency
deriving DecidableEq, Repr

/-- JS `Math.abs` on the idealized rationals. -/
def jsAbs (q : ℚ) : ℚ := if q < 0 then -q else q

/-- First step of the pre-save middleware of the Transaction schema:
default `effectiveDate` to `transactionDate` when unset. -/
def withEffectiveDate (t : Transaction) : Transaction :=
  if t.effectiveDate = none then { t with effectiveDate := some t.transactionDate } else t

/-- The pre-save middleware of the Transaction schema: defaults
`effectiveDate` to `transactionDate`, rejects a transfer without
`transferToAccountId` and a recurring transaction without a frequency. -/
def preSave (t : Transaction) : Except LedgerError Transaction :=
  if (withEffectiveDate t).type = .transfer ∧ (withEffectiveDate t).transferToAccountId = none then
    .error .transferRequiresTarget
  else if (withEffectiveDate t).isRecurring = true ∧ (withEffectiveDate t).recurringFrequency = none then
    .error .recurringRequiresFrequency
  else
    .ok (withEffectiveDate t)

/-- `TransactionSchema.methods.applyToAccount`.  Looks up the primary
account (throws Account-not-found if missing).  For a transfer it debits
the primary by `|amount|`, then, if the target account exists, credits it
by `|amount|`; a missing target is silently skipped.  For any other type it
adds `amount` to the primary balance.

`Account.updateBalance` is not part of the provided sources.
Modelled from the spec: `Account.updateBalance(delta)` adds `delta` to the
account's `currentBalance` (the derived `availableCredit` of credit
accounts is recomputed from the balance and is not separately stored
here). -/
def applyToAccount (t : Transaction) (accs : AccountMap) : Except LedgerError AccountMap :=
  match accs t.accountId with
  | none => .error .accountNotFound
  | some bal =>
    if t.type = .transfer then
      match t.transferToAccountId with
      | none => .ok (setBalance accs t.accountId (bal - jsAbs t.amount))
      | some tid =>
        match setBalance accs t.accountId (bal - jsAbs t.amount) tid with
        | none => .ok (setBalance accs t.accountId (bal - jsAbs t.amount))
        | some tbal =>
          .ok (setBalance (setBalance accs t.accountId (bal - jsAbs t.amount)) tid (tbal + jsAbs t.amount))
    else
      .ok (setBalance accs t.accountId (bal + t.amount))

/-- The reversal transaction that `reverseTransaction` constructs: negated
amount, same type / paymentMethod / account linkage, fresh date and id,
remaining fields at their schema defaults. -/
def mkReversal (t : Transaction) (now : ℤ) (newId : ℕ) : Transaction :=
  { id := newId
    description := "REVERSAL: " ++ t.description
    amount := -t.amount
    type := t.type
    paymentMethod := t.paymentMethod
    accountId := t.accountId
    transferToAccountId := t.transferToAccountId
    transactionDate := now
    notes := some ("Reversal of transaction " ++ toString t.id) }

/-- `TransactionSchema.methods.reverseTransaction`.  Builds the reversal
transaction, saves it (pre-save middleware), applies it to the account
store, then marks the original cancelled and saves the original.  `now` is
the clock value used for the reversal's `transactionDate`, `newId` its
fresh document id.  Returns (updated original, reversal transaction,
updated account store). -/
def reverseTransaction (t : Transaction) (accs : AccountMap) (now : ℤ) (newId : ℕ) :
    Except LedgerError (Transaction × Transaction × AccountMap) :=
  match preSave (mkReversal t now newId) with
  | .error e => .error e
  | .ok rev1 =>
    match applyToAccount rev1 accs with
    | .error e => .error e
    | .ok accs1 =>
      match preSave { t with status := .cancelled } with
      | .error e => .error e
      | .ok t1 => .ok (t1, rev1, accs1)

/-! ### Concrete ledger inputs used by witnesses and counterexamples -/

/-- Store with account 1 at balance 1000 and account 2 at balance 0. -/
def exAccs : AccountMap :=
  fun j => if j = 1 then some 1000 else if j = 2 then some 0 else none

/-- A transfer of 300 from account 1 to account 2. -/
def exTransfer : Transaction :=
  { id := 10, description := "renta", amount := 300, type := .transfer,
    paymentMethod := .bankTransfer, accountId := 1,
    transferToAccountId := some 2, transactionDate := 0 }

/-- A transfer of 300 from account 1 to the nonexistent account 3. -/
def exTransferMissingTarget : Transaction :=
  { id := 11, description := "renta", amount := 300, type := .transfer,
    paymentMethod := .bankTransfer, accountId := 1,
    transferToAccountId := some 3, transactionDate := 0 }

/-- An expense of 200 on account 1 that is already cancelled. -/
def exCancelledExpense : Transaction :=
  { id := 12, description := "gasto", amount := -200, type := .expense,
    paymentMethod := .cash, status := .cancelled, accountId := 1,
    transferToAccountId := none, transactionDate := 0,
    effectiveDate := some 0 }

/-- A posted expense of 200 on account 1. -/
def exPostedExpense : Transaction :=
  { id := 5, description := "gasto", amount := -200, type := .expense,
    paymentMethod := .cash, accountId := 1,
    transferToAccountId := none, transactionDate := 0,
    effectiveDate := some 0 }

/-- The reversal transaction that `reverseTransaction exPostedExpense`
creates (clock 3, fresh id 42), after its pre-save defaulting. -/
def exPostedExpenseRev : Transaction :=
  { id := 42, description := "REVERSAL: gasto", amount := 200,
    type := .expense, paymentMethod := .cash, accountId := 1,
    transferToAccountId := none, transactionDate := 3,
    effectiveDate := some 3,
    notes := some ("Reversal of transaction " ++ toString 5) }

/-- The original expense after reversal marked it cancelled. -/
def exPostedExpenseCancelled : Transaction :=
  { exPostedExpense with status := .cancelled }

/-- The account store after the reversal of `exPostedExpense`. -/
def exAccsAfterRev : AccountMap := setBalance exAccs 1 (1000 + 200)

/-- A transfer whose amount is stored negative (-300) from account 1 to
account 2. -/
def exTransferNeg : Transaction :=
  { id := 13, description := "renta", amount := -300, type := .transfer,
    paymentMethod := .bankTransfer, accountId := 1,
    transferToAccountId := some 2, transactionDate := 0 }

/-- Observer: outcome of an `applyToAccount` call as the balances of two
chosen accounts (`none` when the call failed). -/
def applyBalances (r : Except LedgerError AccountMap) (i j : ℕ) :
    Option (Option ℚ × Option ℚ) :=
  match r with
  | .error _ => none
  | .ok a => some (a i, a j)

/-- Observer: outcome of a `reverseTransaction` call as the updated
original's status and the balances of two chosen accounts (`none` when the
call failed). -/
def reverseOutcome (r : Except LedgerError (Transaction × Transaction × AccountMap))
    (i j : ℕ) : Option (TransactionStatus × Option ℚ × Option ℚ) :=
  match r with
  | .error _ => none
  | .ok (t1, _, a) => some (t1.status, a i, a j)

/-- Apply `exTransfer`, then reverse it, observing the final status of the
original and the balances of accounts 1 and 2. -/
def exRoundTrip : Option (TransactionStatus × Option ℚ × Option ℚ) :=
  match applyToAccount exTransfer exAccs with
  | .error _ => none
  | .ok a => reverseOutcome (reverseTransaction exTransfer a 1 99) 1 2

/-! ## Credit amortization calculator
(accountController.ts, getCreditPaymentCalculation).  JS floating-point
numbers are idealized as reals; the JS value `Infinity` used for the
perpetual-debt signal is modelled by `⊤ : EReal`. -/

/-- One payoff plan row: payment amount, months to payoff, total interest.
Months and interest live in `EReal` because the minimum-payment plan can
return the JS value `Infinity` for them. -/
structure PayoffPlan where
  amount : ℝ
  monthsToPayoff : EReal
  totalInterest : EReal

/-- The three payoff plan rows computed by `getCreditPaymentCalculation`. -/
structure PaymentCalc where
  minimumPayment : PayoffPlan
  noInterestPayment : PayoffPlan
  customPayoff : PayoffPlan

/-- The months-to-payoff amortization formula of the minimum-payment
branch: `Math.ceil(-Math.log(1 - debt*rate/minPay) / Math.log(1 + rate))`. -/
noncomputable def minPaymentMonths (debt rate minPay : ℝ) : ℤ :=
  ⌈-Real.log (1 - debt * rate / minPay) / Real.log (1 + rate)⌉

/-- The custom-payoff payment amount of `getCreditPaymentCalculation`:
level-payment amortization when the monthly rate is positive, otherwise a
straight division of the debt by the months (a branch the enclosing guard
makes unreachable). -/
noncomputable def customPayoffAmount (currentDebt monthlyRate : ℝ) (customMonths : ℕ) : ℝ :=
  if 0 < monthlyRate then
    currentDebt * monthlyRate * (1 + monthlyRate) ^ customMonths /
      ((1 + monthlyRate) ^ customMonths - 1)
  else
    currentDebt / (customMonths : ℝ)

/-- The paymentScenarios object of `getCreditPaymentCalculation`.
`currentDebt = |min(0, currentBalance)|`, `monthlyRate =
(interestRate || 0)/100/12`, `minPay = minimumPayment || 0`,
`daysUntilDue = daysUntilPayment || 30`, `customMonths =
parseInt(targetPayoffMonths) || 12` are taken as parameters.  The rows are
first initialized (minimum row to the configured minimum payment, custom
row to the requested months) and only recomputed when both the debt and
the monthly rate are positive, exactly as in the source. -/
noncomputable def paymentScenarios (currentDebt monthlyRate minPay daysUntilDue : ℝ)
    (customMonths : ℕ) : PaymentCalc :=
  if 0 < currentDebt ∧ 0 < monthlyRate then
    ⟨(if monthlyRate * currentDebt < minPay then
        ⟨minPay,
         (((minPaymentMonths currentDebt monthlyRate minPay : ℝ)) : EReal),
         ((minPay * (minPaymentMonths currentDebt monthlyRate minPay : ℝ) - currentDebt : ℝ) : EReal)⟩
      else
        ⟨minPay, ⊤, ⊤⟩),
     ⟨currentDebt,
      ((if daysUntilDue ≤ 30 then (1 : ℝ) else ((⌈daysUntilDue / 30⌉ : ℤ) : ℝ)) : EReal),
      ((0 : ℝ) : EReal)⟩,
     ⟨customPayoffAmount currentDebt monthlyRate customMonths,
      ((customMonths : ℝ) : EReal),
      ((customPayoffAmount currentDebt monthlyRate customMonths * (customMonths : ℝ) -
          currentDebt : ℝ) : EReal)⟩⟩
  else
    ⟨⟨minPay, ((0 : ℝ) : EReal), ((0 : ℝ) : EReal)⟩,
     ⟨0, ((0 : ℝ) : EReal), ((0 : ℝ) : EReal)⟩,
     ⟨0, ((customMonths : ℝ) : EReal), ((0 : ℝ) : EReal)⟩⟩

/-! ## Recurrence calculator
(recurringController.ts, calculateNextOccurrence).  A JS `Date` is
modelled at day granularity (the time-of-day components are carried
unchanged by every branch) as a proleptic-Gregorian civil date with
year ≥ 0; its value is the day count since year 0, January 1. -/

/-- JS `Date` leap year rule (Gregorian). -/
def isLeapYear (y : ℕ) : Bool :=
  y % 4 = 0 && (y % 100 ≠ 0 || y % 400 = 0)

/-- Number of days of month `m` (0-based, January = 0) of year `y`;
`new Date(y, m + 1, 0).getDate()` in the source. -/
def daysInMonth (y m : ℕ) : ℕ :=
  if m = 1 then (if isLeapYear y then 29 else 28)
  else if m = 3 ∨ m = 5 ∨ m = 8 ∨ m = 10 then 30
  else 31

/-- Day count of the first day of linear month `k` (where month `m` of
year `y` has linear index `12*y + m`), counted from year 0, January 1. -/
def daysBeforeMonth : ℕ → ℕ
  | 0 => 0
  | k + 1 => daysBeforeMonth k + daysInMonth (k / 12) (k % 12)

/-- A civil date as JS `Date` exposes it: `getFullYear` / `getMonth`
(0-based) / `getDate` (1-based). -/
structure JsDate where
  year : ℕ
  month : ℕ
  day : ℕ
deriving DecidableEq, Repr

/-- A date actually representable by a normalized JS `Date`. -/
def JsDate.valid (d : JsDate) : Prop :=
  d.month < 12 ∧ 1 ≤ d.day ∧ d.day ≤ daysInMonth d.year d.month

instance (d : JsDate) : Decidable d.valid := by
  unfold JsDate.valid
  infer_instance

/-- Day count of a civil date since year 0, January 1.  Extends linearly
in `day`, which is exactly the JS overflow behaviour of
`setMonth`/`setDate` with an out-of-range day. -/
def toDays (d : JsDate) : ℕ :=
  daysBeforeMonth (12 * d.year + d.month) + (d.day - 1)

/-- JS `getDay` (0 = Sunday) of a day count: year 0, January 1 of the
proleptic Gregorian calendar is a Saturday (6). -/
def jsGetDay (n : ℕ) : ℕ := (n + 6) % 7

/-- Normalization of an overflowed (linear month, day) pair as JS `Date`
performs it after `setMonth`: if the stored day exceeds the month length,
roll into the next month.  One step suffices because a stored day is at
most 31 and every month has at least 28 days. -/
def normalizeDay (k d : ℕ) : ℕ × ℕ :=
  if d ≤ daysInMonth (k / 12) (k % 12) then (k, d)
  else (k + 1, d - daysInMonth (k / 12) (k % 12))

/-- `calculateNextOccurrence` of recurringController.ts, returning the day
count of the produced `Date` (or the `Unsupported frequency` error of the
default switch branch).  `dayOfMonth`/`dayOfWeek` are the optional
documented 1–31 / 0–6 arguments; a present `dayOfMonth` of 0 is falsy in
JS and skips the adjustment, while `dayOfWeek` is compared against
`undefined` and therefore adjusts even when 0. -/
def calculateNextOccurrence (fromDate : JsDate) (frequency : String) (interval : ℕ)
    (dayOfMonth : Option ℕ) (dayOfWeek : Option ℕ) : Except String ℕ :=
  if frequency = "daily" then
    .ok (toDays fromDate + interval)
  else if frequency = "weekly" then
    match dayOfWeek with
    | none => .ok (toDays fromDate + 7 * interval)
    | some w =>
      if (w + 7 - jsGetDay (toDays fromDate + 7 * interval)) % 7 = 0 ∧
          toDays fromDate + 7 * interval ≤ toDays fromDate then
        .ok (toDays fromDate + 7 * interval + 7)
      else
        .ok (toDays fromDate + 7 * interval +
          (w + 7 - jsGetDay (toDays fromDate + 7 * interval)) % 7)
  else if frequency = "biweekly" then
    .ok (toDays fromDate + 14 * interval)
  else if frequency = "monthly" then
    match dayOfMonth with
    | none =>
      .ok (daysBeforeMonth (12 * fromDate.year + fromDate.month + interval) + (fromDate.day - 1))
    | some dm =>
      if dm = 0 then
        .ok (daysBeforeMonth (12 * fromDate.year + fromDate.month + interval) + (fromDate.day - 1))
      else
        .ok (daysBeforeMonth (normalizeDay (12 * fromDate.year + fromDate.month + interval) fromDate.day).1 +
          (min dm (daysInMonth ((normalizeDay (12 * fromDate.year + fromDate.month + interval) fromDate.day).1 / 12)
            ((normalizeDay (12 * fromDate.year + fromDate.month + interval) fromDate.day).1 % 12)) - 1))
  else if frequency = "yearly" then
    .ok (daysBeforeMonth (12 * (fromDate.year + interval) + fromDate.month) + (fromDate.day - 1))
  else
    .error ("Unsupported frequency: " ++ frequency)

/-! ## Helper lemmas -/

theorem jsAbs_eq_abs (q : ℚ) : jsAbs q = |q| := by
  unfold jsAbs
  rcases le_or_lt 0 q with h | h
  · rw [if_neg (not_lt.mpr h), abs_of_nonneg h]
  · rw [if_pos h, abs_of_neg h]

theorem setBalance_same (accs : AccountMap) (i : ℕ) (b : ℚ) :
    setBalance accs i b i = some b := by
  simp [setBalance]

theorem setBalance_other (accs : AccountMap) (i : ℕ) (b : ℚ) (j : ℕ) (h : j ≠ i) :
    setBalance accs i b j = accs j := by
  simp [setBalance, h]

theorem withEffectiveDate_fields (t : Transaction) :
    (withEffectiveDate t).type = t.type ∧
    (withEffectiveDate t).transferToAccountId = t.transferToAccountId ∧
    (withEffectiveDate t).isRecurring = t.isRecurring ∧
    (withEffectiveDate t).recurringFrequency = t.recurringFrequency ∧
    (withEffectiveDate t).accountId = t.accountId ∧
    (withEffectiveDate t).amount = t.amount ∧
    (withEffectiveDate t).status = t.status ∧
    (withEffectiveDate t).isActive = t.isActive := by
  unfold withEffectiveDate
  split_ifs <;> simp

theorem withEffectiveDate_of_some (t : Transaction) (h : t.effectiveDate ≠ none) :
    withEffectiveDate t = t := by
  unfold withEffectiveDate
  simp [h]

theorem preSave_eq_of_ok {u v : Transaction} (h : preSave u = .ok v) :
    v = withEffectiveDate u := by
  unfold preSave at h
  split_ifs at h
  simp_all

theorem preSave_ok (u : Transaction)
    (htr : u.type = .transfer → u.transferToAccountId ≠ none)
    (hrec : u.isRecurring = true → u.recurringFrequency ≠ none) :
    preSave u = .ok (withEffectiveDate u) := by
  have hf := withEffectiveDate_fields u
  unfold preSave
  split_ifs with h1 h2 <;> simp_all

theorem applyToAccount_isOk (u : Transaction) (accs : AccountMap) (bal : ℚ)
    (hA : accs u.accountId = some bal) :
    ∃ a, applyToAccount u accs = .ok a := by
  by_cases ht : u.type = .transfer
  · cases htid : u.transferToAccountId with
    | none =>
      exact ⟨setBalance accs u.accountId (bal - jsAbs u.amount),
        by simp [applyToAccount, hA, ht, htid]⟩
    | some tid =>
      cases hmem : setBalance accs u.accountId (bal - jsAbs u.amount) tid with
      | none =>
        exact ⟨setBalance accs u.accountId (bal - jsAbs u.amount),
          by simp [applyToAccount, hA, ht, htid, hmem]⟩
      | some tbal =>
        exact ⟨setBalance (setBalance accs u.accountId (bal - jsAbs u.amount)) tid (tbal + jsAbs u.amount),
          by simp [applyToAccount, hA, ht, htid, hmem]⟩
  · exact ⟨setBalance accs u.accountId (bal + u.amount), by simp [applyToAccount, hA, ht]⟩

/-! ## Claim theorems: Balance Ledger -/

/-- C1: the round-trip law fails on the code for transfers.  Evaluating
apply-then-reverse of a 300 transfer from account 1 (balance 1000) to
account 2 (balance 0) marks the original cancelled but leaves balances
(400, 600) instead of restoring (1000, 0): the reversal transaction is
itself a transfer, and `applyToAccount` debits `|amount|` from the from
account again instead of re-crediting it. -/
theorem roundTrip_transfer_not_restored :
    exRoundTrip = some (.cancelled, some 400, some 600) := by
  with_unfolding_all rfl

/-- C2: `applyToAccount` on a transfer moves `|amount|` from the primary
account to the counterparty (when both exist and differ), regardless of
the stored sign of the amount; on a non-transfer it changes the primary
balance by exactly `amount`. -/
theorem applyToAccount_balance_spec (t : Transaction) (accs : AccountMap) (balA : ℚ)
    (hA : accs t.accountId = some balA) :
    (∀ tid balB, t.type = .transfer → t.transferToAccountId = some tid →
        tid ≠ t.accountId → accs tid = some balB →
        ∃ accs2, applyToAccount t accs = .ok accs2 ∧
          accs2 t.accountId = some (balA - |t.amount|) ∧
          accs2 tid = some (balB + |t.amount|)) ∧
    (t.type ≠ .transfer →
      ∃ accs2, applyToAccount t accs = .ok accs2 ∧
        accs2 t.accountId = some (balA + t.amount)) := by
  have habs : jsAbs t.amount = |t.amount| := jsAbs_eq_abs t.amount
  constructor
  · intro tid balB ht htid hne hB
    have hmem : setBalance accs t.accountId (balA - jsAbs t.amount) tid = some balB := by
      rw [setBalance_other _ _ _ _ hne]
      exact hB
    refine ⟨setBalance (setBalance accs t.accountId (balA - jsAbs t.amount)) tid
      (balB + jsAbs t.amount), ?_, ?_, ?_⟩
    · simp [applyToAccount, hA, ht, htid, hmem]
    · rw [← habs, setBalance_other _ _ _ _ (Ne.symm hne)]
      exact setBalance_same _ _ _
    · rw [← habs]
      exact setBalance_same _ _ _
  · intro ht
    refine ⟨setBalance accs t.accountId (balA + t.amount), ?_, ?_⟩
    · simp [applyToAccount, hA, ht]
    · exact setBalance_same _ _ _

/-- Witness for C2 at a transfer with negatively stored amount (-300) from
account 1 (balance 1000) to account 2 (balance 0). -/
theorem applyToAccount_balance_spec_witness :
    exAccs exTransferNeg.accountId = some 1000 ∧
    ((∀ tid balB, exTransferNeg.type = .transfer → exTransferNeg.transferToAccountId = some tid →
        tid ≠ exTransferNeg.accountId → exAccs tid = some balB →
        ∃ accs2, applyToAccount exTransferNeg exAccs = .ok accs2 ∧
          accs2 exTransferNeg.accountId = some (1000 - |exTransferNeg.amount|) ∧
          accs2 tid = some (balB + |exTransferNeg.amount|)) ∧
     (exTransferNeg.type ≠ .transfer →
       ∃ accs2, applyToAccount exTransferNeg exAccs = .ok accs2 ∧
         accs2 exTransferNeg.accountId = some (1000 + exTransferNeg.amount))) :=
  ⟨by decide, applyToAccount_balance_spec exTransferNeg exAccs 1000 (by decide)⟩

/-- C3: all-or-nothing application fails on the code.  Applying a transfer
from existing account 1 (balance 1000) to the nonexistent account 3 does
not fail with account-not-found: it succeeds, debits the primary to 700
and silently skips the missing counterparty. -/
theorem applyToAccount_missing_counterparty_partial :
    applyBalances (applyToAccount exTransferMissingTarget exAccs) 1 3 =
      some (some 700, none) := by
  with_unfolding_all rfl

/-- C4 counterexample: reversing a transaction whose status is already
cancelled does not fail: it succeeds and changes account 1 from 1000
to 1200. -/
theorem reverse_cancelled_no_error :
    reverseOutcome (reverseTransaction exCancelledExpense exAccs 7 99) 1 2 =
      some (.cancelled, some 1200, some 0) := by
  with_unfolding_all rfl

/-- C4 amended: `reverseTransaction` performs no already-cancelled check:
for any transaction whose primary account exists (and that passes the
save-time validations), including one already cancelled, it succeeds,
creating and applying a new reversal transaction, and leaves the
original's status cancelled. -/
theorem reverse_of_cancelled_succeeds (t : Transaction) (accs : AccountMap) (now : ℤ)
    (newId : ℕ) (bal : ℚ)
    (hstat : t.status = .cancelled)
    (hA : accs t.accountId = some bal)
    (htr : t.type = .transfer → t.transferToAccountId ≠ none)
    (hrec : t.isRecurring = true → t.recurringFrequency ≠ none) :
    ∃ t1 rev1 accs1, reverseTransaction t accs now newId = .ok (t1, rev1, accs1) ∧
      t1.status = .cancelled := by
  have hrev : preSave (mkReversal t now newId) = .ok (withEffectiveDate (mkReversal t now newId)) := by
    apply preSave_ok
    · intro h
      simpa [mkReversal] using htr (by simpa [mkReversal] using h)
    · intro h
      simp [mkReversal] at h
  obtain ⟨a, ha⟩ := applyToAccount_isOk (withEffectiveDate (mkReversal t now newId)) accs bal
    (by rw [(withEffectiveDate_fields (mkReversal t now newId)).2.2.2.2.1]; simpa [mkReversal] using hA)
  have horig : preSave { t with status := .cancelled } = .ok (withEffectiveDate { t with status := .cancelled }) := by
    apply preSave_ok
    · intro h
      simpa using htr (by simpa using h)
    · intro h
      simpa using hrec (by simpa using h)
  refine ⟨withEffectiveDate { t with status := .cancelled },
    withEffectiveDate (mkReversal t now newId), a, ?_, ?_⟩
  · simp [reverseTransaction, hrev, ha, horig]
  · rw [(withEffectiveDate_fields _).2.2.2.2.2.2.1]

/-- Witness for C4's amended theorem at the concrete cancelled expense. -/
theorem reverse_of_cancelled_succeeds_witness :
    exCancelledExpense.status = .cancelled ∧
    (∃ t1 rev1 accs1, reverseTransaction exCancelledExpense exAccs 7 99 = .ok (t1, rev1, accs1) ∧
      t1.status = .cancelled) :=
  ⟨by decide,
   reverse_of_cancelled_succeeds exCancelledExpense exAccs 7 99 1000
     (by decide) (by decide) (by decide) (by decide)⟩

/-- C10: `reverseTransaction` changes the original only in its status
field (in particular `isActive` is untouched), and the new reversal
transaction carries the exact negation of the amount with the same type,
accountId and transferToAccountId. -/
theorem reverseTransaction_frame (t : Transaction) (accs : AccountMap) (now : ℤ) (newId : ℕ)
    (t1 rev1 : Transaction) (accs1 : AccountMap)
    (heff : t.effectiveDate ≠ none)
    (h : reverseTransaction t accs now newId = .ok (t1, rev1, accs1)) :
    t1 = { t with status := .cancelled } ∧
    t1.isActive = t.isActive ∧
    rev1.amount = -t.amount ∧
    rev1.type = t.type ∧
    rev1.accountId = t.accountId ∧
    rev1.transferToAccountId = t.transferToAccountId := by
  cases h1 : preSave (mkReversal t now newId) with
  | error e => simp [reverseTransaction, h1] at h
  | ok rev1' =>
    cases h2 : applyToAccount rev1' accs with
    | error e => simp [reverseTransaction, h1, h2] at h
    | ok accs1' =>
      cases h3 : preSave { t with status := .cancelled } with
      | error e => simp [reverseTransaction, h1, h2, h3] at h
      | ok t1' =>
        have hh : t1' = t1 ∧ rev1' = rev1 ∧ accs1' = accs1 := by
          simpa [reverseTransaction, h1, h2, h3] using h
        rw [← hh.1, ← hh.2.1]
        have ht1 : t1' = { t with status := .cancelled } := by
          rw [preSave_eq_of_ok h3]
          apply withEffectiveDate_of_some
          simpa using heff
        have hr := preSave_eq_of_ok h1
        have hf := withEffectiveDate_fields (mkReversal t now newId)
        refine ⟨ht1, by rw [ht1], ?_, ?_, ?_, ?_⟩
        · rw [hr, hf.2.2.2.2.2.1]
          rfl
        · rw [hr, hf.1]
          rfl
        · rw [hr, hf.2.2.2.2.1]
          rfl
        · rw [hr, hf.2.1]
          rfl

/-- Witness for C10 at a concrete posted expense on account 1. -/
theorem reverseTransaction_frame_witness :
    exPostedExpenseCancelled = { exPostedExpense with status := TransactionStatus.cancelled } ∧
    exPostedExpenseCancelled.isActive = exPostedExpense.isActive ∧
    exPostedExpenseRev.amount = -exPostedExpense.amount ∧
    exPostedExpenseRev.type = exPostedExpense.type ∧
    exPostedExpenseRev.accountId = exPostedExpense.accountId ∧
    exPostedExpenseRev.transferToAccountId = exPostedExpense.transferToAccountId :=
  reverseTransaction_frame exPostedExpense exAccs 3 42
    exPostedExpenseCancelled exPostedExpenseRev exAccsAfterRev (by decide) rfl

/-! ## Claim theorems: Credit Amortization Calculator -/

/-- C6 counterexample: at zero debt the scenarios are not all-zero: the
minimum-payment row keeps the configured minimum payment (150) as its
amount, and the custom row keeps the requested payoff months (12). -/
theorem zero_debt_scenarios_not_all_zero :
    (paymentScenarios 0 0 150 30 12).minimumPayment.amount = 150 ∧
    (150 : ℝ) ≠ 0 ∧
    (paymentScenarios 0 0 150 30 12).customPayoff.monthsToPayoff = ((12 : ℝ) : EReal) ∧
    ((12 : ℝ) : EReal) ≠ ((0 : ℝ) : EReal) := by
  refine ⟨?_, by norm_num, ?_, ?_⟩
  · unfold paymentScenarios
    rw [if_neg (by norm_num)]
  · unfold paymentScenarios
    rw [if_neg (by norm_num)]
    norm_num
  · rw [ne_eq, EReal.coe_eq_coe_iff]
    norm_num

/-- C6 amended: for `debt == 0` (any rate, minimum payment, days and
requested months) the calculation returns zero total interest in every
row and an all-zero interest-free row, but the minimum-payment row keeps
the configured minimum payment as its amount (with zero months and
interest) and the custom row keeps the requested months with zero
amount. -/
theorem paymentScenarios_zero_debt (rate minPay days : ℝ) (months : ℕ) :
    paymentScenarios 0 rate minPay days months =
      ⟨⟨minPay, ((0 : ℝ) : EReal), ((0 : ℝ) : EReal)⟩,
       ⟨0, ((0 : ℝ) : EReal), ((0 : ℝ) : EReal)⟩,
       ⟨0, ((months : ℝ) : EReal), ((0 : ℝ) : EReal)⟩⟩ := by
  unfold paymentScenarios
  rw [if_neg]
  simp

/-- C7: the custom-period row at `debt = 10000`, `monthlyRate = 0`,
`months = 10` evaluates to amount 0 and total interest 0, not the
specified `amount = debt/months = 1000`: the guard of the recomputation
block requires a positive monthly rate, so the zero-rate division branch
inside it is dead code. -/
theorem customPayoff_zero_rate_skipped :
    (paymentScenarios 10000 0 150 30 10).customPayoff.amount = 0 ∧
    (paymentScenarios 10000 0 150 30 10).customPayoff.totalInterest = ((0 : ℝ) : EReal) ∧
    (0 : ℝ) ≠ 1000 := by
  refine ⟨?_, ?_, by norm_num⟩
  · unfold paymentScenarios
    rw [if_neg (by norm_num)]
  · unfold paymentScenarios
    rw [if_neg (by norm_num)]

/-- C8: for positive debt and positive monthly rate, the minimum-payment
row is (⊤, ⊤) exactly when the minimum payment does not exceed the
monthly interest accrual `rate * debt`; otherwise its months equal the
ceiling amortization formula and its total interest is
`minPay * months - debt`, and the infinite value ⊤ is distinct from the
embedding of every finite real. -/
theorem minimumPaymentPlan_spec (debt rate minPay days : ℝ) (months : ℕ)
    (hd : 0 < debt) (hr : 0 < rate) :
    (minPay ≤ rate * debt →
      (paymentScenarios debt rate minPay days months).minimumPayment =
        ⟨minPay, ⊤, ⊤⟩) ∧
    (rate * debt < minPay →
      (paymentScenarios debt rate minPay days months).minimumPayment =
        ⟨minPay, (((minPaymentMonths debt rate minPay : ℝ)) : EReal),
         ((minPay * (minPaymentMonths debt rate minPay : ℝ) - debt : ℝ) : EReal)⟩ ∧
      (paymentScenarios debt rate minPay days months).minimumPayment.monthsToPayoff ≠
        (⊤ : EReal)) ∧
    (∀ x : ℝ, ((x : EReal) ≠ ⊤)) := by
  have hcond : (0 : ℝ) < debt ∧ (0 : ℝ) < rate := ⟨hd, hr⟩
  refine ⟨?_, ?_, fun x => EReal.coe_ne_top x⟩
  · intro hle
    unfold paymentScenarios
    rw [if_pos hcond, if_neg (not_lt.mpr hle)]
  · intro hlt
    have heq : (paymentScenarios debt rate minPay days months).minimumPayment =
        ⟨minPay, (((minPaymentMonths debt rate minPay : ℝ)) : EReal),
         ((minPay * (minPaymentMonths debt rate minPay : ℝ) - debt : ℝ) : EReal)⟩ := by
      unfold paymentScenarios
      rw [if_pos hcond, if_pos hlt]
    refine ⟨heq, ?_⟩
    rw [heq]
    exact EReal.coe_ne_top _

/-- Witness for C8 at `debt = 1`, `rate = 1`, `minPay = 1` (the perpetual
branch, since 1 ≤ 1·1). -/
theorem minimumPaymentPlan_spec_witness :
    (0 : ℝ) < 1 ∧
    (((1 : ℝ) ≤ 1 * 1 →
      (paymentScenarios 1 1 1 30 12).minimumPayment = ⟨1, ⊤, ⊤⟩) ∧
     ((1 : ℝ) * 1 < 1 →
      (paymentScenarios 1 1 1 30 12).minimumPayment =
        ⟨1, (((minPaymentMonths 1 1 1 : ℝ)) : EReal),
         ((1 * (minPaymentMonths 1 1 1 : ℝ) - 1 : ℝ) : EReal)⟩ ∧
      (paymentScenarios 1 1 1 30 12).minimumPayment.monthsToPayoff ≠ (⊤ : EReal)) ∧
     (∀ x : ℝ, ((x : EReal) ≠ ⊤))) :=
  ⟨zero_lt_one, minimumPaymentPlan_spec 1 1 1 30 12 zero_lt_one zero_lt_one⟩

/-! ## Date lemmas -/

theorem daysInMonth_pos (y m : ℕ) : 0 < daysInMonth y m := by
  unfold daysInMonth
  split_ifs <;> norm_num

theorem daysBeforeMonth_succ (k : ℕ) :
    daysBeforeMonth (k + 1) = daysBeforeMonth k + daysInMonth (k / 12) (k % 12) := rfl

theorem daysBeforeMonth_strict_mono {a b : ℕ} (h : a < b) :
    daysBeforeMonth a < daysBeforeMonth b := by
  induction b with
  | zero => omega
  | succ n ih =>
    have hs : daysBeforeMonth n < daysBeforeMonth (n + 1) := by
      rw [daysBeforeMonth_succ]
      have := daysInMonth_pos (n / 12) (n % 12)
      omega
    rcases Nat.lt_succ_iff_lt_or_eq.mp h with h1 | h1
    · exact lt_trans (ih h1) hs
    · rw [h1]
      exact hs

theorem daysBeforeMonth_mono {a b : ℕ} (h : a ≤ b) :
    daysBeforeMonth a ≤ daysBeforeMonth b := by
  rcases eq_or_lt_of_le h with h1 | h1
  · rw [h1]
  · exact le_of_lt (daysBeforeMonth_strict_mono h1)

theorem toDays_lt_next_month (d : JsDate) (hv : d.valid) :
    toDays d < daysBeforeMonth (12 * d.year + d.month + 1) := by
  obtain ⟨hm, hd1, hd2⟩ := hv
  have h1 : (12 * d.year + d.month) / 12 = d.year := by omega
  have h2 : (12 * d.year + d.month) % 12 = d.month := by omega
  have h3 : daysBeforeMonth (12 * d.year + d.month + 1) =
      daysBeforeMonth (12 * d.year + d.month) + daysInMonth d.year d.month := by
    rw [daysBeforeMonth_succ, h1, h2]
  unfold toDays
  omega

theorem normalizeDay_fst_ge (k d : ℕ) : k ≤ (normalizeDay k d).1 := by
  unfold normalizeDay
  split_ifs <;> simp

/-! ## Claim theorems: Recurrence Calculator -/

/-- C5: the frequencies bimonthly, quarterly, semiannually and annually
declared by the Transaction model's recurring configuration are not
handled by `calculateNextOccurrence`: the switch has no case for them
(only yearly exists, not annually), so the default branch throws
`Unsupported frequency` instead of performing the specified month
addition.  Shown here for bimonthly. -/
theorem nextOccurrence_bimonthly_unsupported :
    calculateNextOccurrence ⟨2025, 0, 15⟩ "bimonthly" 1 none none =
      .error "Unsupported frequency: bimonthly" := by
  with_unfolding_all rfl

/-- C9: for every valid from date, supported frequency, interval ≥ 1 and
optional dayOfMonth/dayOfWeek arguments, a successfully computed next
occurrence is strictly after the from date. -/
theorem calculateNextOccurrence_strictly_after
    (d : JsDate) (freq : String) (interval : ℕ) (dom dow : Option ℕ) (v : ℕ)
    (hv : d.valid) (hi : 1 ≤ interval)
    (h : calculateNextOccurrence d freq interval dom dow = .ok v) :
    toDays d < v := by
  unfold calculateNextOccurrence at h
  split_ifs at h with hfd hfw hfb hfm hfy
  · simp only [Except.ok.injEq] at h
    omega
  · cases dow with
    | none =>
      simp only [Except.ok.injEq] at h
      omega
    | some w =>
      simp only [] at h
      split_ifs at h <;> simp only [Except.ok.injEq] at h <;> omega
  · simp only [Except.ok.injEq] at h
    omega
  · cases dom with
    | none =>
      simp only [Except.ok.injEq] at h
      have hlt := daysBeforeMonth_strict_mono
        (show 12 * d.year + d.month < 12 * d.year + d.month + interval by omega)
      unfold toDays
      omega
    | some dm =>
      simp only [] at h
      split_ifs at h with hdm
      · simp only [Except.ok.injEq] at h
        have hlt := daysBeforeMonth_strict_mono
          (show 12 * d.year + d.month < 12 * d.year + d.month + interval by omega)
        unfold toDays
        omega
      · simp only [Except.ok.injEq] at h
        have hge : 12 * d.year + d.month + interval ≤
            (normalizeDay (12 * d.year + d.month + interval) d.day).1 :=
          normalizeDay_fst_ge _ _
        have h1 : daysBeforeMonth (12 * d.year + d.month + 1) ≤
            daysBeforeMonth (normalizeDay (12 * d.year + d.month + interval) d.day).1 :=
          daysBeforeMonth_mono (by omega)
        have h2 := toDays_lt_next_month d hv
        omega
  · simp only [Except.ok.injEq] at h
    have hlt := daysBeforeMonth_strict_mono
      (show 12 * d.year + d.month < 12 * (d.year + interval) + d.month by omega)
    unfold toDays
    omega

/-- Witness for C9: the monthly frequency from January 31 of year 0 with
dayOfMonth 31 (the JS overflow path: setMonth rolls Feb 31 over to
March 2, then the day is clamped to March 31, day count 90), strictly
after the from date (day count 30). -/
theorem calculateNextOccurrence_strictly_after_witness :
    JsDate.valid ⟨0, 0, 31⟩ ∧ 1 ≤ 1 ∧
    calculateNextOccurrence ⟨0, 0, 31⟩ "monthly" 1 (some 31) none = .ok 90 ∧
    toDays ⟨0, 0, 31⟩ < 90 :=
  ⟨by decide, le_refl 1, by with_unfolding_all rfl,
   calculateNextOccurrence_strictly_after ⟨0, 0, 31⟩ "monthly" 1 (some 31) none 90
     (by decide) (le_refl 1) (by with_unfolding_all rfl)⟩

end Presupuesto
